import Mathlib

/-!
Verification development for the MentisAI hybrid AI response router.

The definitions below are a shallow embedding of the orchestration code:

* the client-side `sendMessage` of `src/hooks/useAI.ts` (Groq primary,
  Gemini fallback, Gemini Vision for image attachments), with provider
  network calls modelled as an environment of oracles and the hook's
  React state (`isLoading`, `error`, `statusMessage`) as explicit fields
  of the outcome record;
* the backend `/api/chat` handler (auth guard, input validation,
  traffic router, generation parameters);
* the flashcard/quiz JSON extraction of `src/pages/ToolsPage.tsx`;
* the auto-titling leg of `handleSubmit` in the root `App` component;
* a ReasoningBlockParser modelled from the specification (the repository
  ships no implementation of it).
-/

namespace Mentis

/-! ## Data model (src/types.ts and the attachment shape of useAI.ts) -/

/-- Message author role (`Role` enum in src/types.ts). -/
inductive Role
  | user
  | model
deriving DecidableEq

/-- Attachment kind (the `type` field of the attachment argument of
`sendMessage`: the string union `image | text`). -/
inductive AttachKind
  | image
  | text
deriving DecidableEq

/-- File attachment as carried by messages and by the current turn
(`{ content, type, mimeType?, fileName? }`). The source field `type` is
called `kind` here because `type` is a Lean keyword. -/
structure Attachment where
  content : String
  kind : AttachKind
  mimeType : Option String
  fileName : Option String
deriving DecidableEq

/-- A conversation message (`Message` in src/types.ts, with the
`attachment` field the AI hook reads on history messages). -/
structure Message where
  role : Role
  content : String
  attachment : Option Attachment
deriving DecidableEq

/-- Academic subject (`Subject` enum in src/types.ts). -/
inductive Subject
  | math
  | physics
  | chemistry
  | history
  | biology
  | literature
  | coding
  | general
deriving DecidableEq

/-- The string value of each `Subject` enum member. -/
def Subject.label : Subject → String
  | .math => "Math"
  | .physics => "Physics"
  | .chemistry => "Chemistry"
  | .history => "History"
  | .biology => "Biology"
  | .literature => "Literature"
  | .coding => "Coding"
  | .general => "General"

/-! ## Prompt construction (sendMessage, src/hooks/useAI.ts) -/

/-- The Direct Answer mode block appended to the base prompt. -/
def directBlock : String :=
  "\n\nMODE: Direct Answer\n- Provide the answer immediately with a clear, concise explanation.\n- Show your work/reasoning step by step.\n- Be efficient and to the point.\n- Use examples when helpful."

/-- The Socratic Tutor mode block appended to the base prompt. -/
def socraticBlock : String :=
  "\n\nMODE: Socratic Tutor\n- NEVER give the answer directly unless the student has tried and explicitly asks for it.\n- Guide the student through leading questions to help them discover the answer.\n- Identify where the student is struggling and ask probing questions about that specific area.\n- Be patient, encouraging, and supportive.\n- After the student understands, offer to create practice problems for the areas they struggled with.\n- Start by asking what they already know about the topic.\n- If they\x27re stuck, give small hints instead of answers."

/-- The Deep Reasoning mode block (used by the backend handler and the
reasoning-enabled variant of the hook). -/
def reasoningBlock : String :=
  "\n\nMODE: Deep Reasoning\n- Think through the problem step by step before answering.\n- Wrap your internal reasoning in <thinking> tags.\n- After your reasoning, provide a clear, well-structured final answer.\n- Show mathematical derivations, logical deductions, and analytical steps.\n- Consider edge cases and alternative approaches.\n- Be thorough but organized in your reasoning.\n- Format: <thinking>your step-by-step reasoning here</thinking> followed by the final answer."

/-- System instruction built by `sendMessage`: base sentence, one mode
block, then subject-specific directives. -/
def mkSystemInstruction (subject : Subject) (isSocratic : Bool) : String :=
  let base := "You are an expert Tutor specialized in " ++ subject.label ++
    ". IMPORTANT: Always use proper grammar, spelling, and formatting. Never use typos."
  let base := base ++ (if isSocratic then socraticBlock else directBlock)
  let base := base ++ (if subject = Subject.math then " Use LaTeX for math equations." else "")
  let base := base ++ (if subject = Subject.coding then " Provide clean, commented code snippets." else "")
  base

/-! ## History adapters (sendMessage, src/hooks/useAI.ts) -/

/-- One history entry in the shape Gemini expects (`{ role, parts: [{text}] }`,
flattened to its single text part). -/
structure GeminiTurn where
  role : String
  text : String
deriving DecidableEq

/-- One chat message in the OpenAI-compatible shape Groq expects. -/
structure ChatMsg where
  role : String
  content : String
deriving DecidableEq

/-- The `\n[Attachment: fileName]` note the Gemini history appends for any
attachment (an undefined `fileName` renders as the string "undefined"). -/
def attachmentNote : Option Attachment → String
  | none => ""
  | some a => "\n[Attachment: " ++ a.fileName.getD "undefined" ++ "]"

/-- History formatted for the Gemini chat API. -/
def mkGeminiHistory (msgs : List Message) : List GeminiTurn :=
  msgs.map fun m =>
    ⟨if m.role = Role.user then "user" else "model", m.content ++ attachmentNote m.attachment⟩

/-- The `\n[File]: content` suffix appended for text attachments in the
Groq message list. -/
def fileSuffixBracket : Option Attachment → String
  | none => ""
  | some a => if a.kind = AttachKind.text then "\n[File]: " ++ a.content else ""

/-- The `\n\nFile Content:\ncontent` suffix appended for text attachments
on the Gemini fallback message. -/
def fileSuffixContent : Option Attachment → String
  | none => ""
  | some a => if a.kind = AttachKind.text then "\n\nFile Content:\n" ++ a.content else ""

/-- The message list sent to Groq: system instruction, adapted history,
then the current user turn. -/
def mkGroqMessages (sysInstruction : String) (msgs : List Message) (text : String)
    (attachment : Option Attachment) : List ChatMsg :=
  ⟨"system", sysInstruction⟩ ::
    (msgs.map fun m =>
      ⟨if m.role = Role.user then "user" else "assistant",
       m.content ++ fileSuffixBracket m.attachment⟩)
    ++ [⟨"user", text ++ fileSuffixBracket attachment⟩]

/-! ## Character-level string splitting

The JS string operations the source uses (`split`, `startsWith`) are
modelled over character lists, which the kernel evaluates directly. -/

/-- Splits a character list at the first occurrence of `pat`, returning
the text before the occurrence and the text after it. -/
def splitFirst (pat : List Char) : List Char → Option (List Char × List Char)
  | [] => none
  | c :: rest =>
    if pat.isPrefixOf (c :: rest) then some ([], (c :: rest).drop pat.length)
    else
      match splitFirst pat rest with
      | some (pre, post) => some (c :: pre, post)
      | none => none

/-- Fuelled worker for `splitChars`. -/
def splitCharsAux (pat : List Char) : Nat → List Char → List (List Char)
  | 0, s => [s]
  | fuel + 1, s =>
    match splitFirst pat s with
    | none => [s]
    | some (pre, post) => pre :: splitCharsAux pat fuel post

/-- JS `String.prototype.split` on a nonempty separator: all the pieces
between consecutive occurrences of `pat`, in order. -/
def splitChars (pat : List Char) (s : List Char) : List (List Char) :=
  splitCharsAux pat (s.length + 1) s

/-! ## Provider requests and the environment of provider oracles -/

/-- Inline image payload of a Gemini Vision request. The data is
`attachment.content.split(sep)[1]`, absent when the content holds no comma. -/
structure ImagePart where
  data : Option String
  mimeType : String
deriving DecidableEq

/-- One Gemini call as issued by the hook: system instruction, adapted
history, the message sent via `chat.sendMessage`, and the optional inline
image part. -/
structure GeminiRequest where
  systemInstruction : String
  history : List GeminiTurn
  message : String
  imagePart : Option ImagePart
deriving DecidableEq

/-- One Groq chat-completion call as issued by the hook. The temperature
is represented exactly as a rational. -/
structure GroqRequest where
  messages : List ChatMsg
  model : String
  temperature : ℚ
  maxTokens : Nat
deriving DecidableEq

/-- The Gemini Vision request built on the image route. -/
def mkVisionRequest (sysInstruction : String) (hist : List GeminiTurn) (text : String)
    (att : Attachment) : GeminiRequest :=
  ⟨sysInstruction, hist, text,
    some ⟨((splitChars [','] att.content.data).get? 1).map String.mk,
      att.mimeType.getD "image/jpeg"⟩⟩

/-- The Groq request built on the text route. -/
def mkGroqRequest (msgs : List ChatMsg) : GroqRequest :=
  ⟨msgs, "llama-3.3-70b-versatile", 7 / 10, 1024⟩

/-- The text-only Gemini fallback request: same system instruction and
history, user text with the text-attachment content appended, no image. -/
def mkFallbackRequest (sysInstruction : String) (hist : List GeminiTurn) (text : String)
    (attachment : Option Attachment) : GeminiRequest :=
  ⟨sysInstruction, hist, text ++ fileSuffixContent attachment, none⟩

/-- Outcome of one Groq network call: a thrown failure (network, non-2xx),
or a completion whose `choices[0]?.message?.content` is the given optional
string (`none` models a missing choice/field). -/
inductive GroqResult
  | failure (msg : String)
  | success (content : Option String)

/-- Outcome of one Gemini call: the response text, or a thrown failure. -/
inductive GeminiResult
  | ok (text : String)
  | failure (msg : String)

/-- The external world of one `sendMessage` call: the configured Groq
credential and the outcome each provider would produce for a request. -/
structure Env where
  groqApiKey : Option String
  groqRespond : GroqRequest → GroqResult
  geminiRespond : GeminiRequest → GeminiResult

/-- A provider invocation recorded in order of issue. -/
inductive CallEvent
  | groq (req : GroqRequest)
  | gemini (req : GeminiRequest)
deriving DecidableEq

/-- `true` exactly on Gemini invocations. -/
def CallEvent.isGemini : CallEvent → Bool
  | .gemini _ => true
  | .groq _ => false

/-- `true` exactly on Groq invocations. -/
def CallEvent.isGroq : CallEvent → Bool
  | .groq _ => true
  | .gemini _ => false

/-! ## The orchestrator (sendMessage, src/hooks/useAI.ts) -/

/-- The string `sendMessage` resolves with whenever its outer catch runs. -/
def unifiedErrorText : String := "Error: Unable to process request."

/-- Default operator-facing error message used when the thrown error
carries no message. -/
def defaultErrorMessage : String :=
  "I\x27m having trouble connecting right now. Please try again."

/-- `error.message || default`, with an empty message playing the role of
a missing one. -/
def errMsgOr (e : String) : String :=
  if e = "" then defaultErrorMessage else e

/-- Everything one `sendMessage` call produces: the resolved string, the
final React state (`error`, and `isLoading` / `statusMessage` as left by
the `finally` block), the transient statuses emitted in order, the
provider calls issued in order, and the console log lines. -/
structure SendResult where
  text : String
  errorState : Option String
  statuses : List String
  calls : List CallEvent
  logs : List String
  isLoadingFinal : Bool
  statusFinal : Option String
deriving DecidableEq

/-- `attachment?.type === image`. -/
def isImageAttachment : Option Attachment → Bool
  | some a => a.kind = AttachKind.image
  | none => false

/-- The `catch (groqError)` arm of the text route: warn, emit the backup
status, and invoke Gemini once in text-only mode. On Gemini failure the
outer catch produces the unified error result. -/
def fallbackRoute (env : Env) (sysInstruction : String) (hist : List GeminiTurn)
    (text : String) (attachment : Option Attachment)
    (callsSoFar : List CallEvent) (groqErr : String) : SendResult :=
  let req := mkFallbackRequest sysInstruction hist text attachment
  match env.geminiRespond req with
  | .ok t =>
    ⟨t, none, ["Thinking...", "Using backup model..."],
      callsSoFar ++ [CallEvent.gemini req],
      ["Groq failed, falling back to Gemini: " ++ groqErr],
      false, none⟩
  | .failure e =>
    ⟨unifiedErrorText, some (errMsgOr e), ["Thinking...", "Using backup model..."],
      callsSoFar ++ [CallEvent.gemini req],
      ["Groq failed, falling back to Gemini: " ++ groqErr, "AI Error: " ++ e],
      false, none⟩

/-- Route 2 of `sendMessage` (no image attachment): try Groq first; any
throw inside the inner try — a missing API key, a network failure, or an
empty/missing completion — lands in the catch arm and falls back to
Gemini. -/
def textRoute (env : Env) (sysInstruction : String) (hist : List GeminiTurn)
    (msgsAI : List ChatMsg) (text : String) (attachment : Option Attachment) : SendResult :=
  match env.groqApiKey with
  | none => fallbackRoute env sysInstruction hist text attachment [] "Groq API Key missing"
  | some _ =>
    let req := mkGroqRequest msgsAI
    match env.groqRespond req with
    | .failure e => fallbackRoute env sysInstruction hist text attachment [CallEvent.groq req] e
    | .success content =>
      let response := content.getD ""
      if response = "" then
        fallbackRoute env sysInstruction hist text attachment [CallEvent.groq req]
          "Empty response from Groq"
      else
        ⟨response, none, ["Thinking..."], [CallEvent.groq req], [], false, none⟩

/-- The client orchestrator `sendMessage`: builds the system instruction
and both history shapes, then routes — image attachments go directly to
Gemini Vision with no fallback leg, everything else takes the
Groq-then-Gemini text route. The outer catch resolves every failure as
`unifiedErrorText`; the `finally` block clears `isLoading` and
`statusMessage` on every path. -/
def sendMessage (env : Env) (text : String) (subject : Subject)
    (previousMessages : List Message) (attachment : Option Attachment)
    (socraticMode : Bool) : SendResult :=
  let sysInstruction := mkSystemInstruction subject socraticMode
  let hist := mkGeminiHistory previousMessages
  let msgsAI := mkGroqMessages sysInstruction previousMessages text attachment
  match attachment with
  | some att =>
    if att.kind = AttachKind.image then
      let req := mkVisionRequest sysInstruction hist text att
      match env.geminiRespond req with
      | .ok t =>
        ⟨t, none, ["Thinking...", "Analyzing image..."], [CallEvent.gemini req], [], false, none⟩
      | .failure e =>
        ⟨unifiedErrorText, some (errMsgOr e), ["Thinking...", "Analyzing image..."],
          [CallEvent.gemini req], ["AI Error: " ++ e], false, none⟩
    else
      textRoute env sysInstruction hist msgsAI text attachment
  | none => textRoute env sysInstruction hist msgsAI text attachment

/-- Decides whether the primary (Groq) attempt of the text route fails:
the key is missing, the call throws, or the completion content is absent
or empty. -/
def primaryAttemptFails (env : Env) (msgsAI : List ChatMsg) : Bool :=
  match env.groqApiKey with
  | none => true
  | some _ =>
    match env.groqRespond (mkGroqRequest msgsAI) with
    | .failure _ => true
    | .success content => content.getD "" = ""

/-! ## The backend /api/chat handler (the serverless function whose text
is stitched at the end of src/i18n.ts) -/

/-- JS truthiness choice `o || d` over an optional string: the default is
used when the value is absent or empty. -/
def jsOr (o : Option String) (d : String) : String :=
  match o with
  | none => d
  | some s => if s = "" then d else s

/-- The body of the handler request (the fields destructured from
`req.body`) together with the request method and auth header. -/
structure BackendRequest where
  method : String
  authHeader : Option String
  prompt : Option String
  history : List ChatMsg
  fileData : Option String
  reasoningMode : Bool
  socraticMode : Bool
  subject : Option String
  langInstruction : Option String
  mimeType : Option String

/-- The JSON body POSTed to the Groq chat-completion endpoint. -/
structure GroqApiBody where
  model : String
  messages : List ChatMsg
  temperature : ℚ
  maxTokens : Nat
deriving DecidableEq

/-- The JSON body POSTed to the Gemini generateContent endpoint: system
instruction, the history replayed verbatim, and the user turn carrying
the prompt plus the inline base64 file data. -/
structure GeminiApiBody where
  systemInstruction : String
  history : List ChatMsg
  promptText : String
  mimeType : String
  data : String
deriving DecidableEq

/-- An outbound provider call issued by the handler. -/
inductive BackendCall
  | gemini (body : GeminiApiBody)
  | groq (body : GroqApiBody)
deriving DecidableEq

/-- Outcome of one upstream HTTP call made by the handler. -/
inductive UpstreamResult
  | ok (text : String)
  | failure (msg : String)

/-- The handler's external world: token verification and the outcome of
each upstream call. -/
structure BackendEnv where
  verifyToken : String → Bool
  geminiGenerate : GeminiApiBody → UpstreamResult
  groqComplete : GroqApiBody → UpstreamResult

/-- The handler's HTTP response (status plus the text or error payload)
together with the provider calls it issued, in order. -/
structure HandlerResult where
  status : Nat
  payload : String
  calls : List BackendCall
deriving DecidableEq

/-- `prompt && prompt.length > 5000` (an absent or empty prompt is falsy,
and an empty prompt cannot exceed the limit anyway). -/
def promptTooLong : Option String → Bool
  | none => false
  | some s => if s.length > 5000 then true else false

/-- Approximate decoded size of a base64 string: `length * 3 / 4`,
computed exactly as a rational as JS float division does here. -/
def base64SizeBytes (s : String) : ℚ :=
  (s.length * 3 : ℚ) / 4

/-- `fileData && sizeInBytes > 2 * 1024 * 1024`. -/
def fileTooLarge : Option String → Bool
  | none => false
  | some s => if base64SizeBytes s > 2 * 1024 * 1024 then true else false

/-- The system instruction built by the handler: base sentence with the
`subject || general topics` default, one mode block (reasoning wins over
socratic), subject directives, then the language instruction if present. -/
def backendBasePrompt (subject : Option String) (reasoningMode socraticMode : Bool)
    (langInstruction : Option String) : String :=
  let s := "You are an expert Tutor specialized in " ++ jsOr subject "general topics" ++
    ". IMPORTANT: Always use proper grammar, spelling, and formatting. Never use typos."
  let s := s ++ (if reasoningMode then reasoningBlock
    else if socraticMode then socraticBlock else directBlock)
  let s := s ++ (if subject = some "Math" then " Use LaTeX for math equations." else "")
  let s := s ++ (if subject = some "Coding" then " Provide clean, commented code snippets." else "")
  s ++ (match langInstruction with | none => "" | some li => li)

/-- The Groq body the handler builds: mode-dependent temperature and
output budget (0.3 / 2048 in reasoning mode, 0.7 / 1024 otherwise). -/
def backendGroqBody (basePrompt : String) (history : List ChatMsg) (prompt : Option String)
    (reasoningMode : Bool) : GroqApiBody :=
  ⟨"llama-3.3-70b-versatile",
    ⟨"system", basePrompt⟩ :: history ++ [⟨"user", prompt.getD ""⟩],
    if reasoningMode then 3 / 10 else 7 / 10,
    if reasoningMode then 2048 else 1024⟩

/-- The Gemini body the handler builds on the file route. -/
def backendGeminiBody (basePrompt : String) (history : List ChatMsg) (prompt : Option String)
    (mimeType : Option String) (fileData : String) : GeminiApiBody :=
  ⟨basePrompt, history, prompt.getD "", mimeType.getD "image/jpeg", fileData⟩

/-- The `/api/chat` handler: method guard, auth guard, input validation
(prompt length, approximate decoded file size), then the traffic router —
`fileData` present routes to Gemini, otherwise to Groq. Upstream failures
land in the catch and produce a 500. -/
def handler (env : BackendEnv) (req : BackendRequest) : HandlerResult :=
  if req.method ≠ "POST" then ⟨405, "Method Not Allowed", []⟩
  else
    match req.authHeader with
    | none => ⟨401, "Unauthorized: No token provided", []⟩
    | some h =>
      if ¬ "Bearer ".data.isPrefixOf h.data then ⟨401, "Unauthorized: No token provided", []⟩
      else
        let token := String.mk ((splitChars "Bearer ".data h.data).getD 1 [])
        if ¬ env.verifyToken token then ⟨401, "Unauthorized: Invalid token", []⟩
        else if promptTooLong req.prompt then
          ⟨400, "Bad Request: Prompt exceeds 5000 characters", []⟩
        else if fileTooLarge req.fileData then
          ⟨400, "Bad Request: File size exceeds 2MB limit", []⟩
        else
          let basePrompt := backendBasePrompt req.subject req.reasoningMode req.socraticMode
            req.langInstruction
          match req.fileData with
          | some fd =>
            if fd = "" then
              let body := backendGroqBody basePrompt req.history req.prompt req.reasoningMode
              match env.groqComplete body with
              | .ok t => ⟨200, t, [BackendCall.groq body]⟩
              | .failure _ => ⟨500, "Internal Server Error", [BackendCall.groq body]⟩
            else
              let body := backendGeminiBody basePrompt req.history req.prompt req.mimeType fd
              match env.geminiGenerate body with
              | .ok t => ⟨200, t, [BackendCall.gemini body]⟩
              | .failure _ => ⟨500, "Internal Server Error", [BackendCall.gemini body]⟩
          | none =>
            let body := backendGroqBody basePrompt req.history req.prompt req.reasoningMode
            match env.groqComplete body with
            | .ok t => ⟨200, t, [BackendCall.groq body]⟩
            | .failure _ => ⟨500, "Internal Server Error", [BackendCall.groq body]⟩

/-! ## Flashcard / quiz JSON extraction (src/pages/ToolsPage.tsx) -/

/-- The left brace character. -/
def openBrace : Char := '\x7b'

/-- The right brace character. -/
def closeBrace : Char := '\x7d'

/-- `response.match` with the greedy all-spanning object pattern: the
substring from the first left brace to the last right brace, when the
former comes strictly before the latter; no match otherwise. -/
def jsonCandidate (s : String) : Option String :=
  let cs := s.data
  match cs.findIdx? (fun c => c == openBrace), cs.reverse.findIdx? (fun c => c == closeBrace) with
  | some i, some k =>
    let j := cs.length - 1 - k
    if i < j then some (String.mk ((cs.drop i).take (j - i + 1))) else none
  | _, _ => none

/-- Modelled from the spec: the extraction the specification prescribes —
the first balanced brace-delimited substring of the response. The source
regex does not implement this; the definition exists to compare the two. -/
def balancedFrom : List Char → Nat → List Char → Option (List Char)
  | [], _, _ => none
  | c :: rest, depth, acc =>
    if c = openBrace then balancedFrom rest (depth + 1) (acc ++ [c])
    else if c = closeBrace then
      if depth = 1 then some (acc ++ [c])
      else if depth = 0 then none
      else balancedFrom rest (depth - 1) (acc ++ [c])
    else balancedFrom rest depth (acc ++ [c])

/-- Modelled from the spec: first balanced brace-delimited substring,
scanning from the first left brace with a depth counter. -/
def specFirstBalancedBraces (s : String) : Option String :=
  match s.data.dropWhile (fun c => c != openBrace) with
  | [] => none
  | c :: rest => (balancedFrom (c :: rest) 0 []).map String.mk

/-- The document the caller hopes to read out of the extracted substring:
`JSON.parse` either throws (`none`) or yields an object whose `title` and
`cards` fields may each be absent. -/
structure ParsedDeck where
  title : Option String
  cards : Option (List (String × String))

/-- Outcome of one `handleCreateFlashcards` run, after the single
`sendMessage` call returned `response`. -/
inductive FlashOutcome
  | saved (title : String) (cards : List (String × String))
  | alerted
  | silentNoop
deriving DecidableEq

/-- The flashcard generation flow of ToolsPage: extract the brace span,
parse it, and save when a cards array is present. A `JSON.parse` throw
lands in the catch, which alerts the user; the flow issues no second
generation call. A missing match or missing cards field ends silently. -/
def handleCreateFlashcards (parseJson : String → Option ParsedDeck)
    (createTopic : String) (response : String) : FlashOutcome :=
  match jsonCandidate response with
  | none => FlashOutcome.silentNoop
  | some sub =>
    match parseJson sub with
    | none => FlashOutcome.alerted
    | some parsed =>
      match parsed.cards with
      | some cards => FlashOutcome.saved (jsOr parsed.title createTopic) cards
      | none => FlashOutcome.silentNoop

/-- Outcome of one NotesHub `handleCreateFlashcards` run: its catch only
logs the error to the console, so there is no alert outcome. -/
inductive NotesFlashOutcome
  | saved (title : String) (cards : List (String × String))
  | loggedOnly
  | silentNoop
deriving DecidableEq

/-- The flashcard generation flow of the NotesHub page: the same brace
span extraction and parse over the single response, saving when a cards
field is present; its catch logs `Error creating flashcards` and shows
the user nothing. -/
def notesHubCreateFlashcards (parseJson : String → Option ParsedDeck)
    (noteTitle : String) (response : String) : NotesFlashOutcome :=
  match jsonCandidate response with
  | none => NotesFlashOutcome.silentNoop
  | some sub =>
    match parseJson sub with
    | none => NotesFlashOutcome.loggedOnly
    | some parsed =>
      match parsed.cards with
      | some cards => NotesFlashOutcome.saved (jsOr parsed.title noteTitle) cards
      | none => NotesFlashOutcome.silentNoop

/-! ## Auto-titling (handleSubmit in the root App component) -/

/-- The title prompt sent for a brand-new chat. -/
def titlePromptFor (userText : String) : String :=
  "Summarize this query in 3-5 words for a chat title: \x22" ++ userText ++ "\x22"

/-- Strips one leading and one trailing quote character (double or
single), as the anchored quote-replace does. -/
def stripSurroundingQuotes (s : String) : String :=
  let cs := s.data
  let cs := match cs with
    | c :: rest => if c = '\x22' ∨ c = '\x27' then rest else c :: rest
    | [] => []
  let cs := match cs.getLast? with
    | some c => if c = '\x22' ∨ c = '\x27' then cs.dropLast else cs
    | none => cs
  String.mk cs

/-- What the new-chat submit path produces: the title `renameChat`
receives (the auto-title leg always reaches its then-branch because
`sendMessage` never rejects), whether the rejection handler logged
anything, and the response the main chat flow persists. -/
structure SubmitResult where
  chatTitle : Option String
  titleRejectionLogged : Option String
  mainResponsePersisted : String
deriving DecidableEq

/-- The new-chat branch of `handleSubmit`: fires the background auto-title
call, strips surrounding quotes from its resolved value and renames the
chat with it, then runs the main chat call on the just-created empty
history. `sendMessage` resolves on every path, so the rejection handler
of the title call never runs. -/
def newChatSubmit (env : Env) (userText : String) (activeSubject : Subject)
    (attachment : Option Attachment) (socraticMode : Bool) : SubmitResult :=
  let titleResult := sendMessage env (titlePromptFor userText) activeSubject [] none false
  let cleanTitle := stripSurroundingQuotes titleResult.text
  let mainResult := sendMessage env userText activeSubject [] attachment socraticMode
  ⟨some cleanTitle, none, mainResult.text⟩

/-! ## ReasoningBlockParser

Modelled from the spec: the repository ships no implementation of the
reasoning-block extraction (the prompts instruct the model to emit
`<thinking>` delimited blocks, but no source file splits responses on
them). The definitions below follow the specification: a single linear
scan over the response for non-overlapping complete delimiter pairs in
document order, prose between and around them, with no nesting, an
unterminated opener left as literal prose, and whitespace-only segments
dropped. -/

/-- Kind tag of one parsed segment. -/
inductive SegKind
  | prose
  | reasoning
deriving DecidableEq

/-- One output segment of the parser. -/
structure Segment where
  kind : SegKind
  text : String
deriving DecidableEq

/-- The opening reasoning delimiter. -/
def reasoningOpenTag : String := "<thinking>"

/-- The closing reasoning delimiter. -/
def reasoningCloseTag : String := "</thinking>"

/-- Modelled from the spec: the scan, fuelled by the input length. A
complete open/close pair yields a prose segment for the text before it
and a reasoning segment for the text inside it; a missing opener or an
unterminated opener leaves the whole remaining text as prose. -/
def scanAux (tagOpen tagClose : List Char) : Nat → List Char → List Segment
  | 0, s => [⟨SegKind.prose, String.mk s⟩]
  | fuel + 1, s =>
    match splitFirst tagOpen s with
    | none => [⟨SegKind.prose, String.mk s⟩]
    | some (pre, rest) =>
      match splitFirst tagClose rest with
      | none => [⟨SegKind.prose, String.mk s⟩]
      | some (inner, post) =>
        ⟨SegKind.prose, String.mk pre⟩ :: ⟨SegKind.reasoning, String.mk inner⟩ ::
          scanAux tagOpen tagClose fuel post

/-- Modelled from the spec: all raw segments of a response, in order. -/
def scanReasoningBlocks (s : String) : List Segment :=
  scanAux reasoningOpenTag.data reasoningCloseTag.data (s.length + 1) s.data

/-- A segment text containing only whitespace (the empty text included). -/
def isWhitespaceOnly (s : String) : Bool :=
  s.data.all Char.isWhitespace

/-- Modelled from the spec: the ReasoningBlockParser — ordered segments
with whitespace-only segments dropped. -/
def parseReasoningBlocks (s : String) : List Segment :=
  (scanReasoningBlocks s).filter (fun seg => ! isWhitespaceOnly seg.text)

/-! ## Concrete environments used by counterexamples and witnesses -/

/-- Environment with the Groq credential missing and a healthy Gemini. -/
def envNoGroqKey : Env :=
  ⟨none, fun _ => GroqResult.failure "unreachable", fun _ => GeminiResult.ok "Paris."⟩

/-- Environment where every provider call fails. -/
def envAllFail : Env :=
  ⟨none, fun _ => GroqResult.failure "network down", fun _ => GeminiResult.failure "network down"⟩

/-- Environment with a configured key whose Groq call fails and whose
Gemini call succeeds. -/
def envGroqDown : Env :=
  ⟨some "gsk_test", fun _ => GroqResult.failure "HTTP 500", fun _ => GeminiResult.ok "backup answer"⟩

/-- Environment where Gemini always fails. -/
def envVisionFail : Env :=
  ⟨some "gsk_test", fun _ => GroqResult.success (some "groq answer"),
    fun _ => GeminiResult.failure "boom"⟩

/-! ## Helper lemmas about the orchestrator routes -/

/-- The fallback arm always clears the loading state, and resolves with
the unified error exactly when it records an error. -/
theorem fallbackRoute_shape (env : Env) (sysInstruction : String) (hist : List GeminiTurn)
    (text : String) (attachment : Option Attachment) (callsSoFar : List CallEvent)
    (groqErr : String) :
    (fallbackRoute env sysInstruction hist text attachment callsSoFar groqErr).isLoadingFinal
        = false ∧
    (fallbackRoute env sysInstruction hist text attachment callsSoFar groqErr).statusFinal
        = none ∧
    ∀ e, (fallbackRoute env sysInstruction hist text attachment callsSoFar groqErr).errorState
        = some e →
      (fallbackRoute env sysInstruction hist text attachment callsSoFar groqErr).text
        = unifiedErrorText := by
  cases hg : env.geminiRespond (mkFallbackRequest sysInstruction hist text attachment) <;>
    simp [fallbackRoute, hg]

/-- Calls recorded by the fallback arm: the calls made before it, then
exactly one Gemini invocation of the fallback request. -/
theorem fallbackRoute_calls (env : Env) (sysInstruction : String) (hist : List GeminiTurn)
    (text : String) (attachment : Option Attachment) (callsSoFar : List CallEvent)
    (groqErr : String) :
    (fallbackRoute env sysInstruction hist text attachment callsSoFar groqErr).calls =
      callsSoFar ++ [CallEvent.gemini (mkFallbackRequest sysInstruction hist text attachment)] := by
  cases hg : env.geminiRespond (mkFallbackRequest sysInstruction hist text attachment) <;>
    simp [fallbackRoute, hg]

/-- On fallback success the fallback text is resolved verbatim. -/
theorem fallbackRoute_ok (env : Env) (sysInstruction : String) (hist : List GeminiTurn)
    (text : String) (attachment : Option Attachment) (callsSoFar : List CallEvent)
    (groqErr t : String)
    (h : env.geminiRespond (mkFallbackRequest sysInstruction hist text attachment)
      = GeminiResult.ok t) :
    (fallbackRoute env sysInstruction hist text attachment callsSoFar groqErr).text = t := by
  simp [fallbackRoute, h]

/-- On fallback failure the unified error is resolved, the error state is
set, and both provider errors are logged. -/
theorem fallbackRoute_failure (env : Env) (sysInstruction : String) (hist : List GeminiTurn)
    (text : String) (attachment : Option Attachment) (callsSoFar : List CallEvent)
    (groqErr e : String)
    (h : env.geminiRespond (mkFallbackRequest sysInstruction hist text attachment)
      = GeminiResult.failure e) :
    (fallbackRoute env sysInstruction hist text attachment callsSoFar groqErr).text
        = unifiedErrorText ∧
    (fallbackRoute env sysInstruction hist text attachment callsSoFar groqErr).errorState
        = some (errMsgOr e) ∧
    ("Groq failed, falling back to Gemini: " ++ groqErr)
        ∈ (fallbackRoute env sysInstruction hist text attachment callsSoFar groqErr).logs ∧
    ("AI Error: " ++ e)
        ∈ (fallbackRoute env sysInstruction hist text attachment callsSoFar groqErr).logs := by
  simp [fallbackRoute, h]

/-- When the primary attempt fails, the text route reduces to the
fallback arm after at most one Groq invocation and no Gemini one. -/
theorem textRoute_fail_eq (env : Env) (sysInstruction : String) (hist : List GeminiTurn)
    (msgsAI : List ChatMsg) (text : String) (attachment : Option Attachment)
    (hFail : primaryAttemptFails env msgsAI = true) :
    ∃ callsSoFar groqErr,
      textRoute env sysInstruction hist msgsAI text attachment =
        fallbackRoute env sysInstruction hist text attachment callsSoFar groqErr ∧
      callsSoFar.countP CallEvent.isGroq ≤ 1 ∧
      callsSoFar.countP CallEvent.isGemini = 0 := by
  unfold primaryAttemptFails at hFail
  unfold textRoute
  cases hk : env.groqApiKey with
  | none =>
    exact ⟨[], "Groq API Key missing", rfl, by simp, by simp⟩
  | some k =>
    rw [hk] at hFail
    cases hg : env.groqRespond (mkGroqRequest msgsAI) with
    | failure e =>
      exact ⟨[CallEvent.groq (mkGroqRequest msgsAI)], e, by simp [hg], by simp [List.countP_cons, CallEvent.isGroq], by simp [List.countP_cons, CallEvent.isGemini]⟩
    | success content =>
      rw [hg] at hFail
      simp only [decide_eq_true_eq] at hFail
      refine ⟨[CallEvent.groq (mkGroqRequest msgsAI)], "Empty response from Groq", ?_, by simp [List.countP_cons, CallEvent.isGroq], by simp [List.countP_cons, CallEvent.isGemini]⟩
      simp [hg, hFail]

/-- The text route always clears the loading state and unifies errors. -/
theorem textRoute_shape (env : Env) (sysInstruction : String) (hist : List GeminiTurn)
    (msgsAI : List ChatMsg) (text : String) (attachment : Option Attachment) :
    (textRoute env sysInstruction hist msgsAI text attachment).isLoadingFinal = false ∧
    (textRoute env sysInstruction hist msgsAI text attachment).statusFinal = none ∧
    ∀ e, (textRoute env sysInstruction hist msgsAI text attachment).errorState = some e →
      (textRoute env sysInstruction hist msgsAI text attachment).text = unifiedErrorText := by
  cases hk : env.groqApiKey with
  | none =>
    simp only [textRoute, hk]
    exact fallbackRoute_shape ..
  | some k =>
    cases hg : env.groqRespond (mkGroqRequest msgsAI) with
    | failure e =>
      simp only [textRoute, hk, hg]
      exact fallbackRoute_shape ..
    | success content =>
      by_cases hc : content.getD "" = ""
      · simp only [textRoute, hk, hg, hc, if_pos rfl]
        exact fallbackRoute_shape ..
      · simp [textRoute, hk, hg, hc]

/-! ## Claim theorems -/

/-- C1: a call whose current attachment has kind image invokes only the
vision provider — the single recorded call is the Gemini Vision request,
Groq is never attempted, and when that vision call fails the whole call
fails with the unified error and no further attempt. -/
theorem image_attachment_vision_only
    (env : Env) (text : String) (subject : Subject) (prev : List Message)
    (att : Attachment) (socratic : Bool) (h : att.kind = AttachKind.image) :
    (sendMessage env text subject prev (some att) socratic).calls =
      [CallEvent.gemini (mkVisionRequest (mkSystemInstruction subject socratic)
        (mkGeminiHistory prev) text att)] ∧
    (∀ q, CallEvent.groq q ∉ (sendMessage env text subject prev (some att) socratic).calls) ∧
    ∀ e, env.geminiRespond (mkVisionRequest (mkSystemInstruction subject socratic)
        (mkGeminiHistory prev) text att) = GeminiResult.failure e →
      (sendMessage env text subject prev (some att) socratic).text = unifiedErrorText ∧
      (sendMessage env text subject prev (some att) socratic).errorState = some (errMsgOr e) := by
  cases hg : env.geminiRespond (mkVisionRequest (mkSystemInstruction subject socratic)
      (mkGeminiHistory prev) text att) with
  | ok t => simp [sendMessage, h, hg]
  | failure e => simp [sendMessage, h, hg]

/-- Witness for C1 at a concrete image attachment and a failing vision
provider. -/
theorem image_attachment_vision_only_witness :
    (sendMessage envVisionFail "what is in this diagram?" Subject.physics []
        (some ⟨"data:image/png;base64,AAAA", AttachKind.image, some "image/png", none⟩)
        false).text = unifiedErrorText := by
  have h := image_attachment_vision_only envVisionFail "what is in this diagram?"
    Subject.physics [] ⟨"data:image/png;base64,AAAA", AttachKind.image, some "image/png", none⟩
    false rfl
  exact (h.2.2 "boom" rfl).1

/-- C9: `sendMessage` is total — every call yields a result with
`isLoading` cleared and no transient status left, and whenever an error
was recorded the resolved string is exactly the unified error text. -/
theorem send_message_resolves_and_resets
    (env : Env) (text : String) (subject : Subject) (prev : List Message)
    (att : Option Attachment) (socratic : Bool) :
    (sendMessage env text subject prev att socratic).isLoadingFinal = false ∧
    (sendMessage env text subject prev att socratic).statusFinal = none ∧
    ∀ e, (sendMessage env text subject prev att socratic).errorState = some e →
      (sendMessage env text subject prev att socratic).text = unifiedErrorText := by
  cases att with
  | none =>
    simp only [sendMessage]
    exact textRoute_shape ..
  | some a =>
    by_cases h : a.kind = AttachKind.image
    · cases hg : env.geminiRespond (mkVisionRequest (mkSystemInstruction subject socratic)
          (mkGeminiHistory prev) text a) with
      | ok t => simp [sendMessage, h, hg]
      | failure e => simp [sendMessage, h, hg]
    · simp only [sendMessage, if_neg h]
      exact textRoute_shape ..

/-- Witness for C9 at a concrete failing environment. -/
theorem send_message_resolves_and_resets_witness :
    (sendMessage envAllFail "2+2?" Subject.math [] none false).isLoadingFinal = false ∧
    (sendMessage envAllFail "2+2?" Subject.math [] none false).text = unifiedErrorText := by
  have h := send_message_resolves_and_resets envAllFail "2+2?" Subject.math [] none false
  exact ⟨h.1, h.2.2 "network down" rfl⟩

/-- C4 counterexample: with the Groq credential missing and Gemini
healthy, the fallback IS attempted (one Gemini call is recorded) and the
call succeeds with the fallback text — the failure is neither fatal nor
surfaced, contradicting the claim that no fallback attempt is made. -/
theorem missing_groq_key_fallback_counterexample :
    (sendMessage envNoGroqKey "capital of France?" Subject.general [] none false).calls =
      [CallEvent.gemini (mkFallbackRequest (mkSystemInstruction Subject.general false) []
        "capital of France?" none)] ∧
    (sendMessage envNoGroqKey "capital of France?" Subject.general [] none false).text =
      "Paris." ∧
    (sendMessage envNoGroqKey "capital of France?" Subject.general [] none false).errorState =
      none := by
  exact ⟨rfl, rfl, rfl⟩

/-- C4 amended: a missing primary credential is treated as an ordinary
primary failure — Groq is never invoked (it cannot be), the Gemini
fallback is attempted exactly once, and the call only fails (with the
unified error) if that fallback also fails. -/
theorem missing_groq_key_falls_back
    (env : Env) (text : String) (subject : Subject) (prev : List Message)
    (att : Option Attachment) (socratic : Bool)
    (hk : env.groqApiKey = none) (hAtt : isImageAttachment att = false) :
    (sendMessage env text subject prev att socratic).calls =
      [CallEvent.gemini (mkFallbackRequest (mkSystemInstruction subject socratic)
        (mkGeminiHistory prev) text att)] ∧
    (∀ t, env.geminiRespond (mkFallbackRequest (mkSystemInstruction subject socratic)
        (mkGeminiHistory prev) text att) = GeminiResult.ok t →
      (sendMessage env text subject prev att socratic).text = t) ∧
    ∀ e, env.geminiRespond (mkFallbackRequest (mkSystemInstruction subject socratic)
        (mkGeminiHistory prev) text att) = GeminiResult.failure e →
      (sendMessage env text subject prev att socratic).text = unifiedErrorText := by
  have hsend : sendMessage env text subject prev att socratic =
      fallbackRoute env (mkSystemInstruction subject socratic) (mkGeminiHistory prev)
        text att [] "Groq API Key missing" := by
    cases att with
    | none => simp [sendMessage, textRoute, hk]
    | some a =>
      have ha : ¬ a.kind = AttachKind.image := by
        simpa [isImageAttachment] using hAtt
      simp [sendMessage, textRoute, hk, ha]
  rw [hsend]
  refine ⟨by simpa using fallbackRoute_calls .., ?_, ?_⟩
  · intro t ht
    exact fallbackRoute_ok _ _ _ _ _ _ _ _ ht
  · intro e he
    exact (fallbackRoute_failure _ _ _ _ _ _ _ _ he).1

/-- Witness for the amended C4 at a concrete environment with the key
missing and the fallback healthy. -/
theorem missing_groq_key_falls_back_witness :
    (sendMessage envNoGroqKey "2+2?" Subject.general [] none false).text = "Paris." := by
  have h := missing_groq_key_falls_back envNoGroqKey "2+2?" Subject.general [] none false
    rfl rfl
  exact h.2.1 "Paris." rfl

/-- C6 counterexample: on a response holding two balanced objects, the
extraction returns the greedy span from the first left brace to the last
right brace, not the first balanced object the claim describes; and on an
unparseable response the NotesHub flashcard flow ends with the error
logged only — no user-visible generation failure is surfaced there. -/
theorem json_extraction_not_balanced_counterexample :
    jsonCandidate "{a} mid {b}" = some "{a} mid {b}" ∧
    specFirstBalancedBraces "{a} mid {b}" = some "{a}" ∧
    jsonCandidate "{a} mid {b}" ≠ specFirstBalancedBraces "{a} mid {b}" ∧
    notesHubCreateFlashcards (fun _ => none) "Photosynthesis" "{a} mid {b}" =
      NotesFlashOutcome.loggedOnly := by
  exact ⟨rfl, rfl, by decide, rfl⟩

/-- C6 amended: both callers extract the substring spanning from the
first left brace to the last right brace of the response (not the first
balanced object) and parse it over their single generation call; when
that parse fails no retry is issued, and the surfacing is
caller-specific — the ToolsPage flow ends in the user-visible alert while
the NotesHub flow only logs the error. -/
theorem flashcard_parse_failure_not_retried (parseJson : String → Option ParsedDeck)
    (topic noteTitle resp sub : String)
    (h1 : jsonCandidate resp = some sub) (h2 : parseJson sub = none) :
    handleCreateFlashcards parseJson topic resp = FlashOutcome.alerted ∧
    notesHubCreateFlashcards parseJson noteTitle resp = NotesFlashOutcome.loggedOnly := by
  simp [handleCreateFlashcards, notesHubCreateFlashcards, h1, h2]

/-- Witness for the amended C6 at a concrete unparseable response. -/
theorem flashcard_parse_failure_not_retried_witness :
    handleCreateFlashcards (fun _ => none) "gravity" "{a} mid {b}" = FlashOutcome.alerted ∧
    notesHubCreateFlashcards (fun _ => none) "Notes" "{a} mid {b}" =
      NotesFlashOutcome.loggedOnly := by
  exact flashcard_parse_failure_not_retried (fun _ => none) "gravity" "Notes" "{a} mid {b}"
    "{a} mid {b}" rfl rfl

/-- C2: on a text-only request (no attachment or a text attachment) whose
primary attempt fails in any way, exactly one Gemini fallback call is
issued (and at most one Groq call — neither provider is retried), the
fallback request carries the same system instruction and adapted history
and the user text with the text-attachment content appended and no image,
and on fallback success its completion text is resolved verbatim. -/
theorem primary_failure_single_fallback
    (env : Env) (text : String) (subject : Subject) (prev : List Message)
    (att : Option Attachment) (socratic : Bool)
    (hAtt : isImageAttachment att = false)
    (hFail : primaryAttemptFails env
      (mkGroqMessages (mkSystemInstruction subject socratic) prev text att) = true) :
    (sendMessage env text subject prev att socratic).calls.countP CallEvent.isGemini = 1 ∧
    (sendMessage env text subject prev att socratic).calls.countP CallEvent.isGroq ≤ 1 ∧
    (sendMessage env text subject prev att socratic).calls.getLast? =
      some (CallEvent.gemini (mkFallbackRequest (mkSystemInstruction subject socratic)
        (mkGeminiHistory prev) text att)) ∧
    (mkFallbackRequest (mkSystemInstruction subject socratic) (mkGeminiHistory prev) text
      att).systemInstruction = mkSystemInstruction subject socratic ∧
    (mkFallbackRequest (mkSystemInstruction subject socratic) (mkGeminiHistory prev) text
      att).history = mkGeminiHistory prev ∧
    (mkFallbackRequest (mkSystemInstruction subject socratic) (mkGeminiHistory prev) text
      att).message = text ++ fileSuffixContent att ∧
    (mkFallbackRequest (mkSystemInstruction subject socratic) (mkGeminiHistory prev) text
      att).imagePart = none ∧
    ∀ t, env.geminiRespond (mkFallbackRequest (mkSystemInstruction subject socratic)
        (mkGeminiHistory prev) text att) = GeminiResult.ok t →
      (sendMessage env text subject prev att socratic).text = t := by
  have hsend : sendMessage env text subject prev att socratic =
      textRoute env (mkSystemInstruction subject socratic) (mkGeminiHistory prev)
        (mkGroqMessages (mkSystemInstruction subject socratic) prev text att) text att := by
    cases att with
    | none => simp [sendMessage]
    | some a =>
      have ha : ¬ a.kind = AttachKind.image := by
        simpa [isImageAttachment] using hAtt
      simp [sendMessage, ha]
  obtain ⟨callsSoFar, groqErr, heq, hgroq, hgem⟩ := textRoute_fail_eq env
    (mkSystemInstruction subject socratic) (mkGeminiHistory prev)
    (mkGroqMessages (mkSystemInstruction subject socratic) prev text att) text att hFail
  rw [hsend, heq]
  have hcalls := fallbackRoute_calls env (mkSystemInstruction subject socratic)
    (mkGeminiHistory prev) text att callsSoFar groqErr
  refine ⟨?_, ?_, ?_, rfl, rfl, rfl, rfl, ?_⟩
  · rw [hcalls]
    simp [List.countP_append, hgem, CallEvent.isGemini]
  · rw [hcalls]
    simp only [List.countP_append]
    have : List.countP CallEvent.isGroq
        [CallEvent.gemini (mkFallbackRequest (mkSystemInstruction subject socratic)
          (mkGeminiHistory prev) text att)] = 0 := by
      simp [List.countP_cons, CallEvent.isGroq]
    omega
  · rw [hcalls]
    simp
  · intro t ht
    exact fallbackRoute_ok _ _ _ _ _ _ _ _ ht

/-- Witness for C2 at a concrete request with a failing Groq and a
healthy Gemini. -/
theorem primary_failure_single_fallback_witness :
    (sendMessage envGroqDown "2+2?" Subject.math [] none false).calls.countP
      CallEvent.isGemini = 1 ∧
    (sendMessage envGroqDown "2+2?" Subject.math [] none false).text = "backup answer" := by
  have h := primary_failure_single_fallback envGroqDown "2+2?" Subject.math [] none false
    rfl rfl
  exact ⟨h.1, h.2.2.2.2.2.2.2 "backup answer" rfl⟩

/-- C3: whenever the terminal attempt fails — the single vision call for
an image request, or the Gemini fallback after a failed primary for a
text request — the caller receives exactly the unified error string (a
value, not a raw provider exception), the error state is set, and the
provider-specific error detail goes to the console log only. -/
theorem unified_failure_on_terminal_error
    (env : Env) (text : String) (subject : Subject) (prev : List Message)
    (att : Option Attachment) (socratic : Bool) (a : Attachment) (e : String)
    (h : (att = some a ∧ a.kind = AttachKind.image ∧
            env.geminiRespond (mkVisionRequest (mkSystemInstruction subject socratic)
              (mkGeminiHistory prev) text a) = GeminiResult.failure e) ∨
         (isImageAttachment att = false ∧
            primaryAttemptFails env (mkGroqMessages (mkSystemInstruction subject socratic)
              prev text att) = true ∧
            env.geminiRespond (mkFallbackRequest (mkSystemInstruction subject socratic)
              (mkGeminiHistory prev) text att) = GeminiResult.failure e)) :
    (sendMessage env text subject prev att socratic).text = unifiedErrorText ∧
    (sendMessage env text subject prev att socratic).errorState = some (errMsgOr e) ∧
    ("AI Error: " ++ e) ∈ (sendMessage env text subject prev att socratic).logs := by
  rcases h with ⟨hatt, hkind, hg⟩ | ⟨hAtt, hFail, hg⟩
  · subst hatt
    simp [sendMessage, hkind, hg]
  · have hsend : sendMessage env text subject prev att socratic =
        textRoute env (mkSystemInstruction subject socratic) (mkGeminiHistory prev)
          (mkGroqMessages (mkSystemInstruction subject socratic) prev text att) text att := by
      cases att with
      | none => simp [sendMessage]
      | some b =>
        have hb : ¬ b.kind = AttachKind.image := by
          simpa [isImageAttachment] using hAtt
        simp [sendMessage, hb]
    obtain ⟨callsSoFar, groqErr, heq, _, _⟩ := textRoute_fail_eq env
      (mkSystemInstruction subject socratic) (mkGeminiHistory prev)
      (mkGroqMessages (mkSystemInstruction subject socratic) prev text att) text att hFail
    rw [hsend, heq]
    have hfb := fallbackRoute_failure env (mkSystemInstruction subject socratic)
      (mkGeminiHistory prev) text att callsSoFar groqErr e hg
    exact ⟨hfb.1, hfb.2.1, hfb.2.2.2⟩

/-- Witness for C3 at a concrete request where both text attempts fail. -/
theorem unified_failure_on_terminal_error_witness :
    (sendMessage envAllFail "2+2?" Subject.math [] none false).text = unifiedErrorText ∧
    ("AI Error: " ++ "network down") ∈
      (sendMessage envAllFail "2+2?" Subject.math [] none false).logs := by
  have h := unified_failure_on_terminal_error envAllFail "2+2?" Subject.math [] none false
    ⟨"", AttachKind.text, none, none⟩ "network down" (Or.inr ⟨rfl, rfl, rfl⟩)
  exact ⟨h.1, h.2.2⟩

/-- Every call list the handler can produce: empty, the single Groq body
it builds, or a single Gemini body. -/
theorem handler_calls_shape (env : BackendEnv) (req : BackendRequest) :
    (handler env req).calls = [] ∨
    (handler env req).calls = [BackendCall.groq (backendGroqBody
      (backendBasePrompt req.subject req.reasoningMode req.socraticMode req.langInstruction)
      req.history req.prompt req.reasoningMode)] ∨
    ∃ body, (handler env req).calls = [BackendCall.gemini body] := by
  unfold handler
  repeat' (first | split | dsimp only)
  all_goals first
    | (left; rfl)
    | (right; left; rfl)
    | (right; right; exact ⟨_, rfl⟩)

/-- C7: every Groq body the backend handler issues carries the
mode-dependent generation parameters — max_tokens 2048 and temperature
3/10 in reasoning mode against 1024 and 7/10 for the direct and socratic
modes (both of which run with `reasoningMode` false) — and the reasoning
budget is strictly larger while its temperature is strictly lower. -/
theorem reasoning_mode_generation_params (env : BackendEnv) (req : BackendRequest) :
    (∀ b, BackendCall.groq b ∈ (handler env req).calls →
      b.temperature = (if req.reasoningMode then (3 : ℚ) / 10 else 7 / 10) ∧
      b.maxTokens = (if req.reasoningMode then 2048 else 1024)) ∧
    (3 : ℚ) / 10 < 7 / 10 ∧ (1024 : Nat) < 2048 := by
  refine ⟨?_, by norm_num, by norm_num⟩
  intro b hb
  rcases handler_calls_shape env req with hs | hs | ⟨body, hs⟩
  · rw [hs] at hb
    exact absurd hb (List.not_mem_nil _)
  · rw [hs] at hb
    have hbEq : b = backendGroqBody
        (backendBasePrompt req.subject req.reasoningMode req.socraticMode req.langInstruction)
        req.history req.prompt req.reasoningMode := by
      have := List.mem_singleton.mp hb
      exact BackendCall.groq.inj this
    subst hbEq
    exact ⟨rfl, rfl⟩
  · rw [hs] at hb
    have := List.mem_singleton.mp hb
    exact absurd this (by simp)

/-- A healthy backend environment accepting every token. -/
def envBackendOk : BackendEnv :=
  ⟨fun _ => true, fun _ => UpstreamResult.ok "t", fun _ => UpstreamResult.ok "t"⟩

/-- A concrete authorized reasoning-mode request with no file payload. -/
def reqReasoning : BackendRequest :=
  ⟨"POST", some "Bearer tok", some "2+2?", [], none, true, false, some "Math", none, none⟩

/-- Witness for C7 at a concrete authorized reasoning-mode request that
reaches the Groq call. -/
theorem reasoning_mode_generation_params_witness :
    (backendGroqBody (backendBasePrompt (some "Math") true false none) [] (some "2+2?")
      true).temperature = (3 : ℚ) / 10 ∧
    (backendGroqBody (backendBasePrompt (some "Math") true false none) [] (some "2+2?")
      true).maxTokens = 2048 := by
  have h := reasoning_mode_generation_params envBackendOk reqReasoning
  have hcalls : (handler envBackendOk reqReasoning).calls =
      [BackendCall.groq (backendGroqBody (backendBasePrompt (some "Math") true false none)
        [] (some "2+2?") true)] := rfl
  have hmem : BackendCall.groq (backendGroqBody
      (backendBasePrompt (some "Math") true false none) [] (some "2+2?") true) ∈
      (handler envBackendOk reqReasoning).calls := by
    rw [hcalls]
    exact List.mem_singleton.mpr rfl
  have hb := h.1 _ hmem
  exact ⟨hb.1, hb.2⟩

/-- C10: an authorized POST whose prompt exceeds 5000 characters, or
whose base64 file payload decodes to more than 2 MiB by the handler
estimate, is rejected with HTTP 400 before any provider call is issued. -/
theorem backend_validation_rejects_before_provider_call
    (env : BackendEnv) (req : BackendRequest) (ah : String)
    (hm : req.method = "POST") (hh : req.authHeader = some ah)
    (hb : "Bearer ".data.isPrefixOf ah.data = true)
    (hv : env.verifyToken (String.mk ((splitChars "Bearer ".data ah.data).getD 1 [])) = true)
    (hbig : promptTooLong req.prompt = true ∨ fileTooLarge req.fileData = true) :
    (handler env req).status = 400 ∧ (handler env req).calls = [] := by
  unfold handler
  repeat' (first | split | dsimp only)
  all_goals simp_all

/-- Witness for C10 at a concrete authorized request carrying a
5001-character prompt. -/
theorem backend_validation_rejects_witness :
    (handler envBackendOk
      ⟨"POST", some "Bearer tok", some (String.mk (List.replicate 5001 'a')), [], none,
        false, false, none, none, none⟩).status = 400 ∧
    (handler envBackendOk
      ⟨"POST", some "Bearer tok", some (String.mk (List.replicate 5001 'a')), [], none,
        false, false, none, none, none⟩).calls = [] := by
  refine backend_validation_rejects_before_provider_call _ _ "Bearer tok" rfl rfl (by decide)
    (by decide) (Or.inl ?_)
  have hlen : (String.mk (List.replicate 5001 'a')).length = 5001 := by
    show (List.replicate 5001 'a').length = 5001
    exact List.length_replicate 5001 'a'
  show (if (String.mk (List.replicate 5001 'a')).length > 5000 then true else false) = true
  rw [hlen]
  rfl

/-- A list is a Boolean prefix of itself followed by anything. -/
theorem isPrefixOf_append_self (l r : List Char) : l.isPrefixOf (l ++ r) = true := by
  induction l with
  | nil => simp [List.isPrefixOf]
  | cons c cs ih => simp [List.isPrefixOf, ih]

/-- `splitFirst` splits at an explicit occurrence of the pattern when the
leading character of the pattern does not occur before it. -/
theorem splitFirst_at_boundary (c : Char) (pat rest : List Char) :
    ∀ pre : List Char, (∀ x ∈ pre, x ≠ c) →
      splitFirst (c :: pat) (pre ++ (c :: pat) ++ rest) = some (pre, rest) := by
  intro pre
  induction pre with
  | nil =>
    intro _
    have h1 : (c :: pat).isPrefixOf ((c :: pat) ++ rest) = true := isPrefixOf_append_self _ _
    have h2 : ((c :: pat) ++ rest).drop (c :: pat).length = rest := List.drop_left _ _
    simp only [List.nil_append]
    rw [show (c :: pat) ++ rest = c :: (pat ++ rest) from rfl]
    simp only [splitFirst]
    rw [show c :: (pat ++ rest) = (c :: pat) ++ rest from rfl] at *
    simp [h1, h2]
  | cons d pre ih =>
    intro hpre
    have hd : d ≠ c := hpre d (by simp)
    have hrec := ih (fun x hx => hpre x (by simp [hx]))
    have hnp : ¬ ((c :: pat).isPrefixOf (d :: (pre ++ (c :: pat) ++ rest)) = true) := by
      simp only [List.isPrefixOf, Bool.and_eq_true, beq_iff_eq]
      rintro ⟨hcd, -⟩
      exact hd hcd.symm
    rw [show (d :: pre) ++ (c :: pat) ++ rest = d :: (pre ++ (c :: pat) ++ rest) from rfl]
    simp only [splitFirst]
    rw [if_neg hnp, hrec]

/-- `splitFirst` finds nothing when the leading character of the pattern
does not occur in the input. -/
theorem splitFirst_none (c : Char) (pat : List Char) :
    ∀ s : List Char, (∀ x ∈ s, x ≠ c) → splitFirst (c :: pat) s = none := by
  intro s
  induction s with
  | nil => intro _; rfl
  | cons d rest ih =>
    intro hs
    have hd : d ≠ c := hs d (by simp)
    have hnp : ¬ ((c :: pat).isPrefixOf (d :: rest) = true) := by
      simp only [List.isPrefixOf, Bool.and_eq_true, beq_iff_eq]
      rintro ⟨hcd, -⟩
      exact hd hcd.symm
    simp only [splitFirst]
    rw [if_neg hnp, ih (fun x hx => hs x (by simp [hx]))]

/-- A text free of the opening delimiter head character scans to a single
prose segment, whatever the fuel. -/
theorem scanAux_no_open (tagClose : List Char) (c : Char) (pat : List Char) (s : List Char)
    (h : ∀ x ∈ s, x ≠ c) :
    ∀ n, scanAux (c :: pat) tagClose n s = [⟨SegKind.prose, String.mk s⟩] := by
  intro n
  cases n with
  | zero => rfl
  | succ m => simp [scanAux, splitFirst_none c pat s h]

/-- C5: parsing `P1 <tag> R <endtag> P2`, for delimiter-free prose texts
P1, P2 and reasoning text R, yields exactly the segments prose P1,
reasoning R, prose P2 in original order, with whitespace-only segments
dropped. -/
theorem reasoning_parser_round_trip (P1 R P2 : String)
    (h1 : ∀ x ∈ P1.data, x ≠ '<') (h2 : ∀ x ∈ R.data, x ≠ '<')
    (h3 : ∀ x ∈ P2.data, x ≠ '<') :
    parseReasoningBlocks (P1 ++ reasoningOpenTag ++ R ++ reasoningCloseTag ++ P2) =
      ([⟨SegKind.prose, P1⟩, ⟨SegKind.reasoning, R⟩, ⟨SegKind.prose, P2⟩] : List Segment).filter
        (fun seg => ! isWhitespaceOnly seg.text) := by
  have hopen : reasoningOpenTag.data = '<' :: "thinking>".data := rfl
  have hclose : reasoningCloseTag.data = '<' :: "/thinking>".data := rfl
  have hdata : (P1 ++ reasoningOpenTag ++ R ++ reasoningCloseTag ++ P2).data =
      (P1.data ++ reasoningOpenTag.data) ++
        ((R.data ++ reasoningCloseTag.data) ++ P2.data) := by
    simp [String.data_append]
  have hs1 : splitFirst reasoningOpenTag.data
      ((P1.data ++ reasoningOpenTag.data) ++ ((R.data ++ reasoningCloseTag.data) ++ P2.data)) =
      some (P1.data, (R.data ++ reasoningCloseTag.data) ++ P2.data) := by
    rw [hopen]
    exact splitFirst_at_boundary '<' _ _ P1.data h1
  have hs2 : splitFirst reasoningCloseTag.data ((R.data ++ reasoningCloseTag.data) ++ P2.data) =
      some (R.data, P2.data) := by
    rw [hclose]
    exact splitFirst_at_boundary '<' _ _ R.data h2
  have hs3 : scanAux reasoningOpenTag.data reasoningCloseTag.data
      ((P1 ++ reasoningOpenTag ++ R ++ reasoningCloseTag ++ P2).length) P2.data =
      [⟨SegKind.prose, String.mk P2.data⟩] := by
    rw [hopen]
    exact scanAux_no_open _ '<' _ P2.data h3 _
  unfold parseReasoningBlocks scanReasoningBlocks
  rw [hdata]
  simp only [scanAux, hs1, hs2, hs3]

/-- Witness for C5 at concrete prose and reasoning texts. -/
theorem reasoning_parser_round_trip_witness :
    parseReasoningBlocks "Hello. <thinking>use the rule</thinking> Done." =
      [⟨SegKind.prose, "Hello. "⟩, ⟨SegKind.reasoning, "use the rule"⟩,
       ⟨SegKind.prose, " Done."⟩] := by
  have h := reasoning_parser_round_trip "Hello. " "use the rule" " Done."
    (by decide) (by decide) (by decide)
  exact h.trans (by decide)

/-- C8: when both providers fail during the background auto-title call,
the main chat flow still completes, the rejection handler of the title
call never logs (the promise resolved), but the conversation is renamed
to the unified error string — a failure artifact surfaced to the user,
against the documented intent that auto-titling failures stay invisible. -/
theorem autotitle_failure_renames_to_error :
    (newChatSubmit envAllFail "What is gravity?" Subject.physics none false).chatTitle =
      some unifiedErrorText ∧
    SubmitResult.mainResponsePersisted
      (newChatSubmit envAllFail "What is gravity?" Subject.physics none false) =
        unifiedErrorText ∧
    SubmitResult.titleRejectionLogged
      (newChatSubmit envAllFail "What is gravity?" Subject.physics none false) = none := by
  exact ⟨rfl, rfl, rfl⟩

end Mentis
